import Mathlib

/-
Verification of the `terraform_output` Ansible module
(plugins/modules/terraform_output.py).

The module is a thin adapter: it builds the command line
`<binary> output -no-color -json [-state <state_file>]`, runs it,
classifies the exit code, parses the JSON on stdout and returns it to
the caller under the single key `outputs` (or fails with a message).

We embed the module shallowly.  The external capabilities the Python
code consumes (os.path.exists, module.run_command, json.loads,
module.get_bin_path) are packaged in an `Env` record; the module's
functions become pure Lean functions over that record, additionally
returning the trace of spawned subprocess commands and of recorded
warnings, so that claims about "no subprocess is spawned" and "a
warning is recorded" are statable.
-/

/-- JSON values as produced by Python `json.loads`: objects are
association lists from output names to records carrying the
`sensitive`, `type` and `value` fields (all field values are just
nested `Json`, type-erased, exactly as in Python). -/
inductive Json where
  | null : Json
  | bool (b : Bool) : Json
  | num (n : Int) : Json
  | str (s : String) : Json
  | arr (elems : List Json) : Json
  | obj (entries : List (String × Json)) : Json

/-- The triple returned by `module.run_command`: exit code, captured
standard output, captured standard error. -/
structure CmdResult where
  rc : Int
  stdout : String
  stderr : String

/-- The external capabilities consumed by the module.
`path_exists` models `os.path.exists`; `run_command` models
`module.run_command(cmd, cwd=...)`; `json_loads` models `json.loads`
(`none` means the decoder raises `JSONDecodeError`); `get_bin_path`
models `module.get_bin_path(name)` (`none` means the lookup fails). -/
structure Env where
  path_exists : String → Bool
  run_command : List String → Option String → CmdResult
  json_loads : String → Option Json
  get_bin_path : String → Option String

/-- The message `_state_args` passes to `module.fail_json` when the
supplied state file does not exist. -/
def state_file_missing_msg (state_file : String) : String :=
  "Could not find state_file \"" ++ state_file ++ "\", check the path and try again."

/-- A fatal outcome of `get_outputs`: either a `module.fail_json` call
(with its `msg` and optional `command` fields), or an uncaught
`json.loads` exception (which carries no module-level diagnostics). -/
inductive Failure where
  | fatal (msg : String) (command : Option String) : Failure
  | json_decode_error : Failure

/-- Embedding of `_state_args` (terraform_output.py lines 81-90).
Python truthiness: a `None` or empty-string `state_file` fails the
`if state_file and ...` tests, so both fall through to `return []`.
`Except.error msg` models the `module.fail_json(msg=...)` call, which
aborts the whole operation. -/
def _state_args (env : Env) (state_file : Option String) : Except String (List String) :=
  match state_file with
  | none => Except.ok []
  | some sf =>
      if sf ≠ "" ∧ env.path_exists sf = true then
        Except.ok ["-state", sf]
      else if sf ≠ "" ∧ ¬ (env.path_exists sf = true) then
        Except.error (state_file_missing_msg sf)
      else
        Except.ok []

/-- The warning text recorded by `get_outputs` when the subprocess
exits with code 1 (the two adjacent Python string literals
concatenate). -/
def no_outputs_warning (stdout stderr : String) : String :=
  "Could not get Terraform outputs. This usually means none have been defined.\nstdout: "
    ++ stdout ++ "\nstderr: " ++ stderr

/-- The `msg` field of the `module.fail_json` call made by
`get_outputs` when the subprocess exits with a code other than 0
and 1. -/
def terraform_failure_msg (rc : Int) (stdout stderr : String) : String :=
  "Failure when getting Terraform outputs. Exited " ++ toString rc
    ++ ".\nstdout: " ++ stdout ++ "\nstderr: " ++ stderr

/-- The local variable `outputs_command` of `get_outputs`
(terraform_output.py lines 94-96): the base arguments
`[terraform_binary, "output", "-no-color", "-json"]` with the state
arguments appended. -/
def outputs_command (terraform_binary : String) (sargs : List String) : List String :=
  [terraform_binary, "output", "-no-color", "-json"] ++ sargs

/-- Embedding of `get_outputs` (terraform_output.py lines 93-119).
Returns the result (`Except.ok outputs` models a normal return of the
parsed outputs; `Except.error` a fatal abort), together with the list
of subprocess commands actually spawned and the list of warnings
recorded, in order. -/
def get_outputs (env : Env) (terraform_binary : String) (project_path : Option String)
    (state_file : Option String) :
    Except Failure Json × List (List String) × List String :=
  match _state_args env state_file with
  | Except.error msg => (Except.error (Failure.fatal msg none), [], [])
  | Except.ok sargs =>
      let r := env.run_command (outputs_command terraform_binary sargs) project_path
      if r.rc = 1 then
        (Except.ok (Json.obj []), [outputs_command terraform_binary sargs],
          [no_outputs_warning r.stdout r.stderr])
      else if r.rc ≠ 0 then
        (Except.error (Failure.fatal (terraform_failure_msg r.rc r.stdout r.stderr)
            (some (String.intercalate " " (outputs_command terraform_binary sargs)))),
          [outputs_command terraform_binary sargs], [])
      else
        match env.json_loads r.stdout with
        | some outputs =>
            (Except.ok outputs, [outputs_command terraform_binary sargs], [])
        | none =>
            (Except.error Failure.json_decode_error,
              [outputs_command terraform_binary sargs], [])

/-- The message with which `module.get_bin_path("terraform",
required=True)` fails fatally when the executable cannot be located on
the system path.  This failure happens inside the Ansible library, not
in this module; only its existence and distinctness matter here. -/
def get_bin_path_required_msg : String :=
  "Failed to find required executable terraform"

/-- Embedding of the binary resolution step in `main`
(terraform_output.py lines 136-139): the supplied `binary_path` is
used verbatim when given; otherwise the system-path lookup for the
executable name `terraform` is consulted. -/
def resolve_binary (env : Env) (binary_path : Option String) : Option String :=
  match binary_path with
  | some bp => some bp
  | none => env.get_bin_path "terraform"

/-- The final result of one module invocation: `exit_json` carries the
payload of the `module.exit_json(outputs=outputs)` call; `fail_json`
carries the `msg` and optional `command` fields of a
`module.fail_json` call; `raised_decode` is an uncaught
`json.loads` exception. -/
inductive ModuleResult where
  | exit_json (payload : List (String × Json)) : ModuleResult
  | fail_json (msg : String) (command : Option String) : ModuleResult
  | raised_decode : ModuleResult

/-- Embedding of `main` (terraform_output.py lines 122-147): resolve
the binary (failing fatally, before any subprocess, when `binary_path`
is absent and the lookup fails), call `get_outputs`, and on success
exit with the single-key payload `outputs`.  Returns the result plus
the trace of spawned commands and recorded warnings. -/
def main_run (env : Env) (project_path binary_path state_file : Option String) :
    ModuleResult × List (List String) × List String :=
  match resolve_binary env binary_path with
  | none => (ModuleResult.fail_json get_bin_path_required_msg none, [], [])
  | some terraform_binary =>
      match get_outputs env terraform_binary project_path state_file with
      | (Except.ok outputs, cmds, warns) =>
          (ModuleResult.exit_json [("outputs", outputs)], cmds, warns)
      | (Except.error (Failure.fatal msg command), cmds, warns) =>
          (ModuleResult.fail_json msg command, cmds, warns)
      | (Except.error Failure.json_decode_error, cmds, warns) =>
          (ModuleResult.raised_decode, cmds, warns)

/-
Concrete environments used to instantiate the hypothetical theorems
below on closed inputs.
-/

/-- An environment where no path exists, the subprocess succeeds with
exit code 0 printing "jsonout", the decoder parses "jsonout" to the
empty JSON object, and the terraform binary is found on the path. -/
def envA : Env where
  path_exists := fun _ => false
  run_command := fun _ _ => ⟨0, "jsonout", ""⟩
  json_loads := fun s => if s = "jsonout" then some (Json.obj []) else none
  get_bin_path := fun _ => some "terraform"

/-- An environment where every nonempty path exists, the subprocess
fails with exit code 2 and stderr "boom", the decoder always fails,
and the system-path lookup finds nothing. -/
def envB : Env where
  path_exists := fun s => s ≠ ""
  run_command := fun _ _ => ⟨2, "", "boom"⟩
  json_loads := fun _ => none
  get_bin_path := fun _ => none

/-- An environment where the subprocess exits with code 1 and stderr
"no outputs". -/
def envC : Env where
  path_exists := fun _ => false
  run_command := fun _ _ => ⟨1, "", "no outputs"⟩
  json_loads := fun _ => none
  get_bin_path := fun _ => some "terraform"

/-- An environment where the subprocess exits with code 0 but its
standard output does not decode as JSON, and the system-path lookup
finds nothing. -/
def envD : Env where
  path_exists := fun _ => false
  run_command := fun _ _ => ⟨0, "not json", ""⟩
  json_loads := fun _ => none
  get_bin_path := fun _ => none

/-- A variation of `envA` that agrees with it on the existence answers,
the subprocess outcomes, the decoder, and the lookup of "terraform",
but differs on lookups of other executable names. -/
def envA2 : Env where
  path_exists := envA.path_exists
  run_command := envA.run_command
  json_loads := envA.json_loads
  get_bin_path := fun n => if n = "terraform" then some "terraform" else none

/-- The binary-resolution failure message differs from every
state-file-missing message: the two reports are distinguishable. -/
lemma get_bin_path_msg_ne_state_file_msg (sf : String) :
    get_bin_path_required_msg ≠ state_file_missing_msg sf := by
  intro h
  have hd := congrArg String.data h
  rw [state_file_missing_msg, String.data_append, String.data_append] at hd
  have h1 := congrArg (List.take 1) hd
  rw [List.take_append_of_le_length, List.take_append_of_le_length] at h1
  · exact absurd h1 (by decide)
  · decide
  · simp [String.data_append]

/-- When the state arguments resolve, `get_outputs` spawns exactly one
subprocess, running `outputs_command`. -/
lemma get_outputs_trace_ok (env : Env) (tb : String)
    (project_path state_file : Option String) (sargs : List String)
    (hs : _state_args env state_file = Except.ok sargs) :
    (get_outputs env tb project_path state_file).2.1 = [outputs_command tb sargs] := by
  unfold get_outputs
  rw [hs]
  by_cases h1 : (env.run_command (outputs_command tb sargs) project_path).rc = 1
  · simp [h1]
  · by_cases h0 : (env.run_command (outputs_command tb sargs) project_path).rc = 0
    · cases hj : env.json_loads
          (env.run_command (outputs_command tb sargs) project_path).stdout <;>
        simp [h1, h0, hj]
    · simp [h1, h0]

/-- When the binary resolves to `tb`, the trace of `main_run` is the
trace of `get_outputs` run with `tb`. -/
lemma main_run_trace_of_resolved (env : Env)
    (project_path state_file binary_path : Option String) (tb : String)
    (hb : resolve_binary env binary_path = some tb) :
    (main_run env project_path binary_path state_file).2
      = (get_outputs env tb project_path state_file).2 := by
  rcases hgo : get_outputs env tb project_path state_file with ⟨res, cmds, warns⟩
  unfold main_run
  rw [hb]
  simp only [hgo]
  cases res with
  | ok o => rfl
  | error f => cases f <;> rfl

/-- Every subprocess spawned by `get_outputs` has the given binary as
its first command-line word. -/
lemma get_outputs_command_head (env : Env) (tb : String)
    (project_path state_file : Option String) :
    ∀ c ∈ (get_outputs env tb project_path state_file).2.1, c.headD "" = tb := by
  intro c hc
  cases hsa : _state_args env state_file with
  | error m =>
      unfold get_outputs at hc
      rw [hsa] at hc
      simp at hc
  | ok sargs =>
      rw [get_outputs_trace_ok env tb project_path state_file sargs hsa] at hc
      simp at hc
      subst hc
      rfl

/-- Claim C1: when the binary resolves, the state arguments resolve,
the subprocess exits with code 0, and its standard output decodes to
the JSON value `j`, the module exits with the payload holding exactly
the single key `outputs` mapped to `j` — the parsed standard output is
returned unchanged, so every output entry keeps its `sensitive`,
`type` and `value` fields. -/
theorem C1_exit0_returns_parsed_outputs (env : Env)
    (project_path binary_path state_file : Option String)
    (tb : String) (sargs : List String) (j : Json)
    (hb : resolve_binary env binary_path = some tb)
    (hs : _state_args env state_file = Except.ok sargs)
    (h0 : (env.run_command (outputs_command tb sargs) project_path).rc = 0)
    (hj : env.json_loads (env.run_command (outputs_command tb sargs) project_path).stdout
        = some j) :
    (main_run env project_path binary_path state_file).1
      = ModuleResult.exit_json [("outputs", j)] := by
  unfold main_run get_outputs
  rw [hb, hs]
  simp [h0, hj]

/-- Witness for C1 at a concrete environment: the subprocess succeeds
and its output parses to the empty object, which is returned under the
key `outputs`. -/
theorem C1_witness :
    (main_run envA none none none).1
      = ModuleResult.exit_json [("outputs", Json.obj [])] :=
  C1_exit0_returns_parsed_outputs envA none none none "terraform" [] (Json.obj [])
    rfl rfl rfl rfl

/-- Counterexample to claim C2 as stated: the empty string is a
supplied `state_file` value that names no existing file
(`envA.path_exists "" = false`), yet the operation does not fail — it
spawns the subprocess and succeeds — because the Python truthiness
test `if state_file` precedes the existence test. -/
theorem C2_counterexample_empty_state_file :
    envA.path_exists "" = false ∧
    (get_outputs envA "terraform" none (some "")).1 = Except.ok (Json.obj []) ∧
    (get_outputs envA "terraform" none (some "")).2.1
      = [["terraform", "output", "-no-color", "-json"]] :=
  ⟨rfl, rfl, rfl⟩

/-- Claim C2 (amended: the supplied path must be non-empty): for every
supplied non-empty `state_file` path that does not exist on disk,
`get_outputs` fails before any subprocess is spawned (the spawned-
command trace is empty) and the failure message
`state_file_missing_msg sf` includes the given path. -/
theorem C2_missing_state_file_fails_before_spawn (env : Env) (tb : String)
    (project_path : Option String) (sf : String)
    (hne : sf ≠ "") (hex : env.path_exists sf = false) :
    get_outputs env tb project_path (some sf)
      = (Except.error (Failure.fatal (state_file_missing_msg sf) none), [], []) := by
  unfold get_outputs _state_args
  simp [hne, hex]

/-- Witness for the amended C2 at the spec's own scenario path
`/tmp/nonexistent.tfstate`. -/
theorem C2_witness :
    get_outputs envA "terraform" none (some "/tmp/nonexistent.tfstate")
      = (Except.error (Failure.fatal
          (state_file_missing_msg "/tmp/nonexistent.tfstate") none), [], []) :=
  C2_missing_state_file_fails_before_spawn envA "terraform" none
    "/tmp/nonexistent.tfstate" (by decide) rfl

/-- Claim C3: when the state arguments resolve and the subprocess
exits with code 1, no fatal error is raised: the result is the empty
mapping `Json.obj []`, and exactly one warning is recorded, whose text
`no_outputs_warning stdout stderr` carries both the captured standard
output and the captured standard error. -/
theorem C3_exit1_warns_and_returns_empty (env : Env) (tb : String)
    (project_path state_file : Option String) (sargs : List String)
    (hs : _state_args env state_file = Except.ok sargs)
    (h1 : (env.run_command (outputs_command tb sargs) project_path).rc = 1) :
    get_outputs env tb project_path state_file
      = (Except.ok (Json.obj []),
         [outputs_command tb sargs],
         [no_outputs_warning
            (env.run_command (outputs_command tb sargs) project_path).stdout
            (env.run_command (outputs_command tb sargs) project_path).stderr]) := by
  unfold get_outputs
  rw [hs]
  simp [h1]

/-- Witness for C3: exit code 1 with stderr "no outputs" yields the
empty mapping and the warning. -/
theorem C3_witness :
    get_outputs envC "terraform" none none
      = (Except.ok (Json.obj []),
         [outputs_command "terraform" []],
         [no_outputs_warning "" "no outputs"]) :=
  C3_exit1_warns_and_returns_empty envC "terraform" none none [] rfl rfl

/-- Claim C4: when the state arguments resolve and the subprocess
exits with a code other than 0 and 1, the operation fails fatally; the
failure report carries the message `terraform_failure_msg rc stdout
stderr` — which contains the exit code, the captured standard output
and the captured standard error — together with the full space-joined
command line string in its `command` field. -/
theorem C4_other_exit_fails_with_diagnostics (env : Env) (tb : String)
    (project_path state_file : Option String) (sargs : List String)
    (hs : _state_args env state_file = Except.ok sargs)
    (h0 : (env.run_command (outputs_command tb sargs) project_path).rc ≠ 0)
    (h1 : (env.run_command (outputs_command tb sargs) project_path).rc ≠ 1) :
    get_outputs env tb project_path state_file
      = (Except.error (Failure.fatal
           (terraform_failure_msg
             (env.run_command (outputs_command tb sargs) project_path).rc
             (env.run_command (outputs_command tb sargs) project_path).stdout
             (env.run_command (outputs_command tb sargs) project_path).stderr)
           (some (String.intercalate " " (outputs_command tb sargs)))),
         [outputs_command tb sargs], []) := by
  unfold get_outputs
  rw [hs]
  simp [h0, h1]

/-- Witness for C4: exit code 2 with stderr "boom" produces the fatal
failure with full diagnostics. -/
theorem C4_witness :
    get_outputs envB "terraform" none none
      = (Except.error (Failure.fatal (terraform_failure_msg 2 "" "boom")
           (some (String.intercalate " " (outputs_command "terraform" [])))),
         [outputs_command "terraform" []], []) :=
  C4_other_exit_fails_with_diagnostics envB "terraform" none none [] rfl
    (by decide) (by decide)

/-- Claim C5: given the real behavior of `os.path.exists` on the empty
string (it is false), the command line spawned by `get_outputs` is
exactly `<binary> output -no-color -json`, followed by the pair
`-state <path>` immediately appended, exactly when `state_file` is
supplied and exists on disk; when `state_file` is omitted, or supplied
but nonexistent, no spawned command carries a `-state` argument. -/
theorem C5_command_line_shape (env : Env) (tb : String)
    (project_path state_file : Option String)
    (h0 : env.path_exists "" = false) :
    (∀ sf, state_file = some sf → env.path_exists sf = true →
        (get_outputs env tb project_path state_file).2.1
          = [[tb, "output", "-no-color", "-json", "-state", sf]])
    ∧ (state_file = none →
        (get_outputs env tb project_path state_file).2.1
          = [[tb, "output", "-no-color", "-json"]])
    ∧ (∀ sf, state_file = some sf → env.path_exists sf = false →
        ∀ c ∈ (get_outputs env tb project_path state_file).2.1,
          "-state" ∉ c.drop 1) := by
  refine ⟨?_, ?_, ?_⟩
  · intro sf hsf hex
    subst hsf
    have hne : sf ≠ "" := by
      intro e
      rw [e, h0] at hex
      cases hex
    have hs : _state_args env (some sf) = Except.ok ["-state", sf] := by
      unfold _state_args
      simp [hne, hex]
    rw [get_outputs_trace_ok env tb project_path (some sf) ["-state", sf] hs]
    simp [outputs_command]
  · intro hsf
    subst hsf
    rw [get_outputs_trace_ok env tb project_path none [] rfl]
    simp [outputs_command]
  · intro sf hsf hex c hc
    subst hsf
    by_cases hne : sf = ""
    · subst hne
      rw [get_outputs_trace_ok env tb project_path (some "") [] rfl] at hc
      simp at hc
      subst hc
      simp [outputs_command]
    · have hfail : get_outputs env tb project_path (some sf)
          = (Except.error (Failure.fatal (state_file_missing_msg sf) none), [], []) := by
        unfold get_outputs _state_args
        simp [hne, hex]
      rw [hfail] at hc
      simp at hc

/-- Witness for C5: an existing state file `/s.tfstate` yields the
`-state` pair immediately after the base arguments. -/
theorem C5_witness :
    (get_outputs envB "terraform" none (some "/s.tfstate")).2.1
      = [["terraform", "output", "-no-color", "-json", "-state", "/s.tfstate"]] :=
  (C5_command_line_shape envB "terraform" none (some "/s.tfstate") rfl).1
    "/s.tfstate" rfl rfl

/-- Claim C6: when `binary_path` is given, every spawned command uses
it verbatim as the executable; when `binary_path` is absent the lookup
of the executable name `terraform` is consulted, and if it fails the
operation fails fatally with no subprocess spawned. -/
theorem C6_binary_resolution (env : Env) (project_path state_file : Option String) :
    (∀ bp, ∀ c ∈ (main_run env project_path (some bp) state_file).2.1,
        c.headD "" = bp)
    ∧ (env.get_bin_path "terraform" = none →
        main_run env project_path none state_file
          = (ModuleResult.fail_json get_bin_path_required_msg none, [], [])) := by
  constructor
  · intro bp c hc
    have ht := main_run_trace_of_resolved env project_path state_file (some bp) bp rfl
    have ht1 : (main_run env project_path (some bp) state_file).2.1
        = (get_outputs env bp project_path state_file).2.1 := by rw [ht]
    rw [ht1] at hc
    exact get_outputs_command_head env bp project_path state_file c hc
  · intro hb
    unfold main_run resolve_binary
    rw [hb]

/-- Witness for C6: in an environment whose lookup finds nothing, the
module fails fatally before spawning anything. -/
theorem C6_witness :
    main_run envB none none none
      = (ModuleResult.fail_json get_bin_path_required_msg none, [], []) :=
  (C6_binary_resolution envB none none).2 rfl

/-- Claim C7: when the subprocess exits with code 0 but its standard
output does not decode as JSON, the decode failure propagates
unhandled: the outcome is the bare `json_decode_error` (no wrapping
message, no command diagnostic), no warning is recorded, and no empty
mapping is substituted. -/
theorem C7_decode_error_propagates (env : Env) (tb : String)
    (project_path state_file : Option String) (sargs : List String)
    (hs : _state_args env state_file = Except.ok sargs)
    (h0 : (env.run_command (outputs_command tb sargs) project_path).rc = 0)
    (hj : env.json_loads (env.run_command (outputs_command tb sargs) project_path).stdout
        = none) :
    get_outputs env tb project_path state_file
      = (Except.error Failure.json_decode_error, [outputs_command tb sargs], []) := by
  unfold get_outputs
  rw [hs]
  simp [h0, hj]

/-- Witness for C7: output "not json" on exit code 0 gives the
unhandled decode error. -/
theorem C7_witness :
    get_outputs envD "terraform" none none
      = (Except.error Failure.json_decode_error, [outputs_command "terraform" []], []) :=
  C7_decode_error_propagates envD "terraform" none none [] rfl rfl rfl

/-- Claim C8: an empty-string `state_file` — supplied yet naming no
existing file — is treated exactly like an omitted `state_file`, for
every environment: `get_outputs` behaves identically (so it does not
fail), and `_state_args` produces no `-state` arguments, because the
truthiness test on `state_file` precedes the existence test. -/
theorem C8_empty_state_file_like_omitted (env : Env) (tb : String)
    (project_path : Option String) :
    get_outputs env tb project_path (some "") = get_outputs env tb project_path none
    ∧ _state_args env (some "") = Except.ok [] :=
  ⟨rfl, rfl⟩

/-- Claim C9: when `binary_path` is absent, the lookup of `terraform`
fails, and the supplied `state_file` does not exist, the fatal error
reported is the binary-resolution error — not the missing-state-file
error (the two messages differ) — and no subprocess is spawned: binary
resolution in `main` runs strictly before the state-file existence
check. -/
theorem C9_binary_error_precedes_state_check (env : Env)
    (project_path : Option String) (sf : String)
    (hb : env.get_bin_path "terraform" = none)
    (hex : env.path_exists sf = false) :
    main_run env project_path none (some sf)
      = (ModuleResult.fail_json get_bin_path_required_msg none, [], [])
    ∧ get_bin_path_required_msg ≠ state_file_missing_msg sf := by
  have _ := hex
  constructor
  · unfold main_run resolve_binary
    rw [hb]
  · exact get_bin_path_msg_ne_state_file_msg sf

/-- Witness for C9: lookup failure together with a nonexistent state
file reports the binary-resolution error. -/
theorem C9_witness :
    main_run envD none none (some "/tmp/nonexistent.tfstate")
      = (ModuleResult.fail_json get_bin_path_required_msg none, [], [])
    ∧ get_bin_path_required_msg ≠ state_file_missing_msg "/tmp/nonexistent.tfstate" :=
  C9_binary_error_precedes_state_check envD none "/tmp/nonexistent.tfstate" rfl rfl

/-- Claim C10: two invocations with identical parameters, identical
state-file-existence answers, identical subprocess outcomes (exit
code, standard output, standard error) and identical decode and lookup
answers produce identical results: the same outcome (outputs payload,
warning texts, or failure message and command string) and the same
trace. -/
theorem C10_determinism (env1 env2 : Env)
    (project_path binary_path state_file : Option String)
    (hbin : env1.get_bin_path "terraform" = env2.get_bin_path "terraform")
    (hex : ∀ p, env1.path_exists p = env2.path_exists p)
    (hrun : ∀ c cwd, env1.run_command c cwd = env2.run_command c cwd)
    (hjson : ∀ s, env1.json_loads s = env2.json_loads s) :
    main_run env1 project_path binary_path state_file
      = main_run env2 project_path binary_path state_file := by
  have hex' : env1.path_exists = env2.path_exists := funext hex
  have hrun' : env1.run_command = env2.run_command :=
    funext fun c => funext (hrun c)
  have hjson' : env1.json_loads = env2.json_loads := funext hjson
  have hsa : ∀ sf, _state_args env1 sf = _state_args env2 sf := by
    intro sf
    unfold _state_args
    rw [hex']
  have hgo : ∀ tb, get_outputs env1 tb project_path state_file
      = get_outputs env2 tb project_path state_file := by
    intro tb
    unfold get_outputs
    rw [hsa, hrun', hjson']
  have hrb : resolve_binary env1 binary_path = resolve_binary env2 binary_path := by
    cases binary_path with
    | some bp => rfl
    | none => exact hbin
  unfold main_run
  rw [hrb]
  simp only [hgo]

/-- Witness for C10: `envA` and `envA2` differ as records (their
lookups disagree on names other than "terraform") yet agree on all
observations the module makes, so both runs coincide. -/
theorem C10_witness :
    main_run envA none none none = main_run envA2 none none none :=
  C10_determinism envA envA2 none none none rfl (fun _ => rfl) (fun _ _ => rfl)
    (fun _ => rfl)
